import Mathlib

/-!
Verification of the aospy `io.py` labeling and filename-construction
utilities against their natural-language specification.

Each Python function is shallowly embedded as an executable Lean
definition.  Python integers are modeled by `Int`; Python's `%` on
integers (sign of the divisor, here always applied with positive
divisor) is modeled by `Int.fmod` (floored remainder), which agrees
with Python for every nonzero divisor.  Functions that can raise
(`UnboundLocalError`, `TypeError`, `ZeroDivisionError`) return
`Option`, with `none` standing for any raised exception.
-/

namespace Aospy

/-- Python's `str(n)` for an integer. -/
def pyStr (n : Int) : String := toString n

/-- Python's `'{:0Nd}'.format(n)`: decimal rendering zero-filled to
width `width`; for negative numbers the sign counts toward the width
and the zeros go after the sign. -/
def fmt0 (width : Nat) (n : Int) : String :=
  if n < 0 then
    let s := toString (-n)
    "-" ++ String.mk (List.replicate (width - 1 - s.length) '0') ++ s
  else
    let s := toString n
    String.mk (List.replicate (width - s.length) '0') ++ s

/-- `'{:02}'.format(n)` as used for monthly labels. -/
def fmt02 (n : Int) : String := fmt0 2 n

/-- `'{:04d}'.format(n)` as used for year stamps. -/
def fmt04 (n : Int) : String := fmt0 4 n

/-- The values the `ens_mem` argument of `_ens_label` takes in practice:
`None`, `False`, the string `'avg'`, or an integer. -/
inductive EnsMem where
  | none : EnsMem
  | fls : EnsMem
  | avg : EnsMem
  | int : Int → EnsMem
deriving DecidableEq

/-- Embedding of `_ens_label` (io.py lines 74-81).  Python's
`ens_mem in (None, False)` tests with `==`, and in Python `0 == False`
is `True`, so the integer `0` also lands in the first branch. -/
def ens_label : EnsMem → String
  | .none => ""
  | .fls => ""
  | .int k => if k = 0 then "" else "mem" ++ pyStr (k + 1)
  | .avg => "ens_mean"

/-- Embedding of `_yr_label` (io.py lines 84-90).  The `assert` only
rules out `None`, which the typed pair already excludes; there is no
check that the range is increasing. -/
def yr_label (yr_range : Int × Int) : String :=
  if yr_range.1 = yr_range.2 then fmt04 yr_range.1
  else fmt04 yr_range.1 ++ "-" ++ fmt04 yr_range.2

/-- The duration-aligned bucketing step at the top of `nc_name_gfdl`
(io.py lines 223-224): `nc_yr = data_yr - (data_yr - nc_start_yr) % nc_dur`. -/
def nc_yr_of (data_yr nc_start_yr nc_dur : Int) : Int :=
  data_yr - Int.fmod (data_yr - nc_start_yr) nc_dur

example : ens_label (.int 0) = "" := by decide
example : ens_label (.int 1) = "mem2" := rfl
example : yr_label (1981, 1981) = "1981" := rfl
example : yr_label (2010, 1981) = "2010-1981" := rfl
example : nc_yr_of 21 1 5 = 21 := by decide
example : nc_yr_of 0 10 3 = -2 := by decide

/-- The values the `intvl` argument of `_time_label` takes: an integer,
a string, or a list/tuple/ndarray of integers. -/
inductive Intvl where
  | int : Int → Intvl
  | str : String → Intvl
  | list : List Int → Intvl
deriving DecidableEq

/-- Python `set(a) == set(b)` for two integer iterables. -/
def setEq (a b : List Int) : Bool :=
  a.all (fun x => decide (x ∈ b)) && b.all (fun x => decide (x ∈ a))

/-- The `labels` dict of `_time_label` (io.py lines 115-120), in
Python 3.7+ insertion order, with `range(1,13)` spelled out. -/
def seasonTable : List (String × List Int) :=
  [("jfm", [1, 2, 3]), ("fma", [2, 3, 4]), ("mam", [3, 4, 5]),
   ("amj", [4, 5, 6]), ("mjj", [5, 6, 7]), ("jja", [6, 7, 8]),
   ("jas", [7, 8, 9]), ("aso", [8, 9, 10]), ("son", [9, 10, 11]),
   ("ond", [10, 11, 12]), ("ndj", [11, 12, 1]), ("djf", [1, 2, 12]),
   ("jjas", [6, 7, 8, 9]), ("djfm", [12, 1, 2, 3]),
   ("ann", [1, 2, 3, 4, 5, 6, 7, 8, 9, 10, 11, 12])]

/-- Embedding of `_time_label` (io.py lines 104-129), `return_val=True`.

* A list (or tuple/ndarray) of length 1 is formatted directly as a
  two-digit label without any range check.
* An `int` in `range(1,13)` likewise.
* Otherwise the `labels` dict is scanned in insertion order for the
  first entry with `intvl == lbl or set(intvl) == set(vals)`:
  - for a string, `intvl == lbl` is plain string equality and
    `set(intvl)` is a set of characters, never equal to a set of
    ints, so only exact (lower-case) code equality can match;
  - for a list, `intvl == lbl` (list vs. str) is `False`, so only
    set equality can match;
  - for an int outside 1-12, `set(intvl)` raises `TypeError`.
  Falling through the loop leaves `label` unassigned and the final
  `return` raises `UnboundLocalError`; both failure modes are `none`. -/
def time_label : Intvl → Option (String × List Int)
  | .list l =>
    if l.length = 1 then some (fmt02 (l.headD 0), l)
    else (seasonTable.find? (fun e => setEq l e.2)).map (fun e => (e.1, e.2))
  | .int n =>
    if 1 ≤ n ∧ n ≤ 12 then some (fmt02 n, [n])
    else none
  | .str s =>
    (seasonTable.find? (fun e => s = e.1)).map (fun e => (e.1, e.2))

example : time_label (.int 2) = some ("02", [2]) := by decide
example : time_label (.list [7]) = some ("07", [7]) := rfl
example : time_label (.list [13]) = some ("13", [13]) := rfl
example : time_label (.str "djf") = some ("djf", [1, 2, 12]) := by decide
example : time_label (.str "DJF") = none := by decide
example : time_label (.list [12, 1, 2]) = some ("djf", [1, 2, 12]) := by decide
example : time_label (.str "ann") =
    some ("ann", [1, 2, 3, 4, 5, 6, 7, 8, 9, 10, 11, 12]) := by decide
example : time_label (.int 13) = none := rfl
example : time_label (.str "annual") = none := by decide

/-- Python's `needle in hay` substring test on strings. -/
def pyContains (hay needle : String) : Bool :=
  (List.range (hay.toList.length + 1)).any
    (fun i => needle.toList.isPrefixOf (hay.toList.drop i))

/-- Python's `hay.find(needle)`: index of the first occurrence of
`needle` as a substring of `hay`, or `-1` if there is none. -/
def pyFind (hay needle : String) : Int :=
  match (List.range (hay.toList.length + 1)).find?
      (fun i => needle.toList.isPrefixOf (hay.toList.drop i)) with
  | some i => (i : Int)
  | none => -1

/-- Python's `s.lower()` (the inputs here are ASCII, where
`Char.toLower` agrees with Python). -/
def pyLower (s : String) : String := String.mk (s.toList.map Char.toLower)

/-- Python's `range(a, b)` materialized as a list of integers. -/
def pyRange (a b : Int) : List Int :=
  (List.range (b - a).toNat).map (fun i => a + (i : Int))

example : pyRange 1 13 = [1, 2, 3, 4, 5, 6, 7, 8, 9, 10, 11, 12] := by decide
example : pyRange 3 3 = [] := rfl
example : pyFind "jfmamjjasondjfmamjjasond" "ndj" = 10 := by decide
example : pyFind "jfmamjjasondjfmamjjasond" "xyz" = -1 := by decide

/-- The argument of `_month_indices`: an `int` or a `str`
(the `assert` in the source admits exactly these two types). -/
inductive MonthsArg where
  | int : Int → MonthsArg
  | str : String → MonthsArg
deriving DecidableEq

/-- Embedding of `_month_indices` (io.py lines 134-155) with the
default `iterable=True`.  An integer is wrapped in a singleton list;
the string `'ann'` (case-insensitive) gives `range(1,13)`; any other
string `s` gives `range(st, st + len(s))` where
`st = 'jfmamjjasond'*2 .find(s.lower()) + 1` — in particular a string
with no occurrence has `find = -1`, hence `st = 0`, and the function
returns `range(0, len(s))` instead of raising. -/
def month_indices : MonthsArg → List Int
  | .int m => [m]
  | .str s =>
    if pyLower s = "ann" then pyRange 1 13
    else
      let st := pyFind ("jfmamjjasond" ++ "jfmamjjasond") (pyLower s) + 1
      pyRange st (st + (s.toList.length : Int))

example : month_indices (.str "ndj") = [11, 12, 13] := by decide
example : month_indices (.str "mam") = [3, 4, 5] := by decide
example : month_indices (.str "xyz") = [0, 1, 2] := by decide
example : month_indices (.str "ANN") =
    [1, 2, 3, 4, 5, 6, 7, 8, 9, 10, 11, 12] := by decide

/-- Embedding of `nc_name_gfdl` (io.py lines 219-268).

`none` models every exception path: `ZeroDivisionError` when
`nc_dur == 0`, and `UnboundLocalError` when no branch assigns the
variable the code goes on to use (`gfdl_file` for an unknown
`data_type` or an unmatched ts/inst interval type, `label` for the
`'av'` seasonal branch — whose only live statement is
`label = label.upper()` with `label` unassigned — and for an
unmatched `'av'` interval type).  The `'av'`/monthly branch also
fails when `_time_label(intvl)` does. -/
def nc_name_gfdl (name domain data_type intvl_type : String) (data_yr : Int)
    (intvl : Intvl) (nc_start_yr nc_dur : Int) : Option String :=
  if nc_dur = 0 then none
  else
    let nc_yr := nc_yr_of data_yr nc_start_yr nc_dur
    if data_type = "ts" ∨ data_type = "inst" then
      if intvl_type = "annual" then
        if nc_dur = 1 then
          some (String.intercalate "." [domain, fmt04 nc_yr, name, "nc"])
        else
          some (domain ++ "." ++ fmt04 nc_yr ++ "-" ++
                fmt04 (nc_yr + nc_dur - 1) ++ "." ++ name ++ ".nc")
      else if intvl_type = "monthly" then
        some (domain ++ "." ++ fmt04 nc_yr ++ "01-" ++
              fmt04 (nc_yr + nc_dur - 1) ++ "12." ++ name ++ ".nc")
      else if intvl_type = "daily" then
        some (domain ++ "." ++ fmt04 nc_yr ++ "0101-" ++
              fmt04 (nc_yr + nc_dur - 1) ++ "1231." ++ name ++ ".nc")
      else if pyContains intvl_type "hr" then
        some (String.intercalate "."
          [domain,
           fmt04 nc_yr ++ "010100-" ++ fmt04 (nc_yr + nc_dur - 1) ++ "123123",
           name, "nc"])
      else none
    else if data_type = "av" then
      let labelOpt : Option String :=
        if intvl_type = "annual" ∨ intvl_type = "ann" then some "ann"
        else if intvl_type = "seasonal" ∨ intvl_type = "seas" then none
        else if intvl_type = "monthly" ∨ intvl_type = "mon" then
          (time_label intvl).map (fun p => p.1)
        else none
      labelOpt.map (fun label =>
        if nc_dur = 1 then
          domain ++ "." ++ fmt04 nc_yr ++ "." ++ label ++ ".nc"
        else
          domain ++ "." ++ fmt04 nc_yr ++ "-" ++
          fmt04 (nc_yr + nc_dur - 1) ++ "." ++ label ++ ".nc")
    else if data_type = "av_ts" then
      some (domain ++ "." ++ fmt04 nc_yr ++ "-" ++
            fmt04 (nc_yr + nc_dur - 1) ++ ".01-12.nc")
    else none

example : nc_name_gfdl "olr" "atmos" "ts" "annual" 21 (.int 1) 1 5 =
    some "atmos.0021-0025.olr.nc" := by decide
example : nc_name_gfdl "olr" "atmos" "ts" "annual" 21 (.int 1) 1 1 =
    some "atmos.0021.olr.nc" := by decide
example : nc_name_gfdl "olr" "atmos" "av" "seasonal" 21 (.int 1) 1 5 =
    none := by decide
example : nc_name_gfdl "olr" "atmos" "xyz" "annual" 21 (.int 1) 1 5 =
    none := by decide
example : nc_name_gfdl "olr" "atmos" "ts" "3hr" 21 (.int 1) 1 5 =
    some "atmos.0021010100-0025123123.olr.nc" := by decide
example : nc_name_gfdl "olr" "atmos" "av" "mon" 21 (.int 2) 1 5 =
    some "atmos.0021-0025.02.nc" := by decide

/-- A decoded calendar date, as produced by the external
`netCDF4.num2date` collaborator; only the fields `_get_time` reads. -/
structure PyDate where
  year : Int
  month : Int
deriving DecidableEq

/-- The membership predicate of `_get_time`'s list comprehension
(io.py lines 192-193): `date.month in months and
date.year in range(start_yr, end_yr+1)`. -/
def timeSelected (start_yr end_yr : Int) (months : List Int) (d : PyDate) : Bool :=
  decide (d.month ∈ months) && decide (start_yr ≤ d.year) && decide (d.year ≤ end_yr)

/-- Embedding of the index comprehension of `_get_time` (io.py lines
175-199): `dates = num2date(time[:], units, calendar)` is modeled by
mapping the decoding collaborator `num2date` over the raw values, and
`[i for i, date in enumerate(dates) if ...]` by filtering the index
range of the list. -/
def get_time_inds (num2date : Int → PyDate) (time : List Int)
    (start_yr end_yr : Int) (months : List Int) : List Nat :=
  (List.range time.length).filter
    (fun i => timeSelected start_yr end_yr months (num2date (time.getD i 0)))

/-- Embedding of `_get_time` with `indices=True`: the index list
together with `time[inds]`, the raw values at those indices. -/
def get_time (num2date : Int → PyDate) (time : List Int)
    (start_yr end_yr : Int) (months : List Int) : List Nat × List Int :=
  let inds := get_time_inds num2date time start_yr end_yr months
  (inds, inds.map (fun i => time.getD i 0))

/-! ## Helper lemmas -/

lemma intercalate_four (a b c d : String) :
    String.intercalate "." [a, b, c, d] = a ++ "." ++ b ++ "." ++ c ++ "." ++ d := by
  simp [String.intercalate, String.intercalate.go, String.append_assoc]

lemma setEq_iff (a b : List Int) : setEq a b = true ↔ ∀ x : Int, x ∈ a ↔ x ∈ b := by
  simp only [setEq, Bool.and_eq_true, List.all_eq_true, decide_eq_true_eq]
  constructor
  · rintro ⟨h1, h2⟩ x
    exact ⟨fun hx => h1 x hx, fun hx => h2 x hx⟩
  · intro h
    exact ⟨fun x hx => (h x).mp hx, fun x hx => (h x).mpr hx⟩

lemma setEq_congr {l a : List Int} (h : ∀ x : Int, x ∈ l ↔ x ∈ a) (b : List Int) :
    setEq l b = setEq a b := by
  apply Bool.coe_iff_coe.mp
  rw [setEq_iff, setEq_iff]
  constructor <;> intro h' x
  · rw [← h x]; exact h' x
  · rw [h x]; exact h' x

lemma length_ne_one_of_pair {l : List Int} {a b : Int} (hab : a ≠ b)
    (ha : a ∈ l) (hb : b ∈ l) : l.length ≠ 1 := by
  intro hl
  obtain ⟨x, rfl⟩ := List.length_eq_one.mp hl
  simp only [List.mem_singleton] at ha hb
  exact hab (ha.trans hb.symm)

/-- Any list set-equal to a season-table entry's months resolves, via
the set-equality fallback of `_time_label`, to exactly that entry.
The singleton branch cannot fire (every entry has two distinct
months), and no earlier entry of the table can match first (the
tables' month-sets are pairwise distinct). -/
lemma time_label_list_of_mem (e : String × List Int) (he : e ∈ seasonTable)
    (l : List Int) (hset : setEq l e.2 = true) :
    time_label (.list l) = some (e.1, e.2) := by
  have hmem := (setEq_iff l e.2).mp hset
  have hcongr := fun b => setEq_congr hmem b
  have htwo : ∃ a ∈ e.2, ∃ b ∈ e.2, a ≠ b := by
    fin_cases he <;> decide
  obtain ⟨a, ha, b, hb, hab⟩ := htwo
  have hlen : l.length ≠ 1 :=
    length_ne_one_of_pair hab ((hmem a).mpr ha) ((hmem b).mpr hb)
  simp only [time_label, if_neg hlen]
  simp only [hcongr]
  fin_cases he <;> decide

/-! ## C1: ts/inst annual filenames -/

/-- C1 (confirmed).  For the time-series (`'ts'`) and instantaneous
(`'inst'`) representations with annual granularity, `nc_name_gfdl`
with `nc_dur > 1` produces exactly
`domain ++ "." ++ {:04d} nc_yr ++ "-" ++ {:04d} (nc_yr+nc_dur-1) ++ "." ++ name ++ ".nc"`
where `nc_yr` is the duration-aligned file start year; with
`nc_dur = 1` the range collapses to the single 4-digit year; and for
domain `"atmos"`, `nc_dur = 5`, `nc_start_yr = 1`, `data_yr = 21` the
result is `"atmos.0021-0025." ++ name ++ ".nc"`. -/
theorem nc_name_ts_annual_spec :
    (∀ dt : String, (dt = "ts" ∨ dt = "inst") →
      ∀ (name domain : String) (data_yr nc_start_yr nc_dur : Int) (intvl : Intvl),
        1 < nc_dur →
        nc_name_gfdl name domain dt "annual" data_yr intvl nc_start_yr nc_dur =
          some (domain ++ "." ++ fmt04 (nc_yr_of data_yr nc_start_yr nc_dur) ++ "-" ++
                fmt04 (nc_yr_of data_yr nc_start_yr nc_dur + nc_dur - 1) ++ "." ++
                name ++ ".nc")) ∧
    (∀ dt : String, (dt = "ts" ∨ dt = "inst") →
      ∀ (name domain : String) (data_yr nc_start_yr : Int) (intvl : Intvl),
        nc_name_gfdl name domain dt "annual" data_yr intvl nc_start_yr 1 =
          some (domain ++ "." ++ fmt04 (nc_yr_of data_yr nc_start_yr 1) ++ "." ++
                name ++ ".nc")) ∧
    (∀ (name : String) (intvl : Intvl),
      nc_name_gfdl name "atmos" "ts" "annual" 21 intvl 1 5 =
        some ("atmos.0021-0025." ++ name ++ ".nc")) := by
  have key : ∀ dt : String, (dt = "ts" ∨ dt = "inst") →
      ∀ (name domain : String) (data_yr nc_start_yr nc_dur : Int) (intvl : Intvl),
        1 < nc_dur →
        nc_name_gfdl name domain dt "annual" data_yr intvl nc_start_yr nc_dur =
          some (domain ++ "." ++ fmt04 (nc_yr_of data_yr nc_start_yr nc_dur) ++ "-" ++
                fmt04 (nc_yr_of data_yr nc_start_yr nc_dur + nc_dur - 1) ++ "." ++
                name ++ ".nc") := by
    rintro dt (rfl | rfl) name domain data_yr nc_start_yr nc_dur intvl hdur <;>
    · have h0 : nc_dur ≠ 0 := by omega
      have h1 : nc_dur ≠ 1 := by omega
      simp [nc_name_gfdl, h0, h1]
  refine ⟨key, ?_, ?_⟩
  · rintro dt (rfl | rfl) name domain data_yr nc_start_yr intvl <;>
      simp [nc_name_gfdl, intercalate_four, String.append_assoc]
  · intro name intvl
    rw [key "ts" (Or.inl rfl) name "atmos" 21 1 5 intvl (by decide)]
    rw [show nc_yr_of 21 1 5 = 21 from by decide,
        show (21 : Int) + 5 - 1 = 25 from by decide,
        show fmt04 21 = "0021" from by decide,
        show fmt04 25 = "0025" from by decide]
    congr 2

/-- Witness for `nc_name_ts_annual_spec` at `dt = "inst"`, `nc_dur = 5`. -/
theorem nc_name_ts_annual_spec_witness :
    nc_name_gfdl "olr" "land" "inst" "annual" 21 (.int 1) 1 5 =
      some ("land" ++ "." ++ fmt04 (nc_yr_of 21 1 5) ++ "-" ++
            fmt04 (nc_yr_of 21 1 5 + 5 - 1) ++ "." ++ "olr" ++ ".nc") :=
  nc_name_ts_annual_spec.1 "inst" (Or.inr rfl) "olr" "land" 21 1 5 (.int 1)
    (by decide)

/-! ## C2: duration-aligned bucketing -/

/-- C2 counterexample.  The claim quantifies over ALL integer
`data_yr` and `nc_start_yr`; at `data_yr = 0`, `nc_start_yr = 10`,
`nc_dur = 3` (a query year before the archive start year) the computed
file start year is `-2`, which violates
`nc_start_yr ≤ file_start_year`. -/
theorem nc_yr_bucketing_cex :
    (0 : Int) < 3 ∧ nc_yr_of 0 10 3 = -2 ∧ ¬ (10 ≤ nc_yr_of 0 10 3) := by
  decide

/-- C2 (corrected): under the additional hypothesis
`nc_start_yr ≤ data_yr` (the query year is not before the archive
start year), the file start year computed by the bucketing step
satisfies all three claimed properties. -/
theorem nc_yr_bucketing (data_yr nc_start_yr nc_dur : Int)
    (hdur : 0 < nc_dur) (hle : nc_start_yr ≤ data_yr) :
    nc_start_yr ≤ nc_yr_of data_yr nc_start_yr nc_dur ∧
    nc_yr_of data_yr nc_start_yr nc_dur ≤ data_yr ∧
    data_yr - nc_yr_of data_yr nc_start_yr nc_dur < nc_dur ∧
    (nc_yr_of data_yr nc_start_yr nc_dur - nc_start_yr) % nc_dur = 0 := by
  have hfm : Int.fmod (data_yr - nc_start_yr) nc_dur =
      (data_yr - nc_start_yr) % nc_dur :=
    Int.fmod_eq_emod _ (le_of_lt hdur)
  set x := data_yr - nc_start_yr with hx
  have hx0 : 0 ≤ x := by omega
  have hr0 : 0 ≤ x % nc_dur := Int.emod_nonneg x (by omega)
  have hrlt : x % nc_dur < nc_dur := Int.emod_lt_of_pos x hdur
  have hrle : x % nc_dur ≤ x := by
    rcases lt_or_le x nc_dur with h | h
    · rw [Int.emod_eq_of_lt hx0 h]
    · exact le_trans (le_of_lt hrlt) h
  have hdiv : (x - x % nc_dur) % nc_dur = 0 := by
    rw [Int.sub_emod, Int.emod_emod, sub_self, Int.zero_emod]
  unfold nc_yr_of
  rw [hfm]
  refine ⟨by omega, by omega, by omega, ?_⟩
  have : data_yr - x % nc_dur - nc_start_yr = x - x % nc_dur := by omega
  rw [this, hdiv]

/-- Witness for `nc_yr_bucketing` at `data_yr = 21`,
`nc_start_yr = 1`, `nc_dur = 5`. -/
theorem nc_yr_bucketing_witness :
    1 ≤ nc_yr_of 21 1 5 ∧ nc_yr_of 21 1 5 ≤ 21 ∧
    21 - nc_yr_of 21 1 5 < 5 ∧ (nc_yr_of 21 1 5 - 1) % 5 = 0 :=
  nc_yr_bucketing 21 1 5 (by decide) (by decide)

/-! ## C4: date-range labels -/

/-- C4 counterexample.  `_yr_label` performs no ordering check: with
`end_year < start_year` it does not fail but returns the reversed
range string `"2010-1981"`. -/
theorem yr_label_cex :
    yr_label (2010, 1981) = "2010-1981" ∧ yr_label (2010, 1981) ≠ "" := by
  constructor <;> decide

/-- C4 (corrected): `_yr_label` returns the single zero-padded 4-digit
year when the two years are equal and `"{start:04d}-{end:04d}"`
whenever they differ — including when `end_year < start_year`, where
no error is raised. -/
theorem yr_label_spec :
    (∀ a b : Int, a = b → yr_label (a, b) = fmt04 a) ∧
    (∀ a b : Int, a ≠ b → yr_label (a, b) = fmt04 a ++ "-" ++ fmt04 b) ∧
    yr_label (1981, 1981) = "1981" ∧ yr_label (1981, 2010) = "1981-2010" := by
  refine ⟨fun a b h => by simp [yr_label, h], fun a b h => by simp [yr_label, h],
    by decide, by decide⟩

/-- Witness for `yr_label_spec`, both branches at concrete years. -/
theorem yr_label_spec_witness :
    yr_label (1981, 1981) = fmt04 1981 ∧
    yr_label (2010, 1981) = fmt04 2010 ++ "-" ++ fmt04 1981 :=
  ⟨yr_label_spec.1 1981 1981 rfl, yr_label_spec.2.1 2010 1981 (by decide)⟩

/-! ## C5: ensemble-member labels -/

/-- C5 counterexample.  Python evaluates `0 in (None, False)` to
`True` because `0 == False`, so `_ens_label(0)` hits the first branch
and returns the empty string, not `"mem1"`. -/
theorem ens_label_cex :
    ens_label (.int 0) = "" ∧ ens_label (.int 0) ≠ "mem1" := by
  constructor <;> decide

/-- C5 (corrected): `_ens_label` returns the empty string for `None`,
`False`, and also for the integer `0` (which Python's `==` treats as
equal to `False`); `"avg"` gives `"ens_mean"`; every nonzero integer
`k` gives `"mem" ++ str (k+1)`, e.g. `_ens_label(1) = "mem2"`. -/
theorem ens_label_spec :
    ens_label .none = "" ∧ ens_label .fls = "" ∧
    ens_label .avg = "ens_mean" ∧ ens_label (.int 0) = "" ∧
    (∀ k : Int, k ≠ 0 → ens_label (.int k) = "mem" ++ pyStr (k + 1)) := by
  refine ⟨rfl, rfl, rfl, by decide, fun k hk => by simp [ens_label, hk]⟩

/-- Witness for `ens_label_spec` at `k = 1`. -/
theorem ens_label_spec_witness :
    ens_label (.int 1) = "mem" ++ pyStr (1 + 1) :=
  ens_label_spec.2.2.2.2 1 (by decide)

/-! ## C3: well-formed interval resolution -/

/-- C3 (confirmed).  `_time_label` is correct on every well-formed
input: a month integer `m` in 1-12 (also as a singleton list) yields
the two-digit zero-padded label and month set `[m]`; every season code
of the vocabulary yields that code and its month tuple, both for the
code string itself and for any list whose month-set equals that
code's months (set-equality fallback); and `"ann"` yields label
`"ann"` with months 1..12. -/
theorem time_label_well_formed :
    (∀ m : Int, 1 ≤ m → m ≤ 12 →
       time_label (.int m) = some (fmt02 m, [m]) ∧
       time_label (.list [m]) = some (fmt02 m, [m])) ∧
    (∀ e ∈ seasonTable, time_label (.str e.1) = some (e.1, e.2)) ∧
    (∀ e ∈ seasonTable, ∀ l : List Int, setEq l e.2 = true →
       time_label (.list l) = some (e.1, e.2)) ∧
    time_label (.str "ann") =
      some ("ann", [1, 2, 3, 4, 5, 6, 7, 8, 9, 10, 11, 12]) := by
  refine ⟨?_, by decide, fun e he l hset => time_label_list_of_mem e he l hset,
    by decide⟩
  intro m h1 h2
  refine ⟨by simp [time_label, h1, h2], by simp [time_label]⟩

/-- Witness for `time_label_well_formed`: month 2, code `"djf"`, and
the list `[12, 1, 2]`, which is set-equal to `djf`'s months. -/
theorem time_label_well_formed_witness :
    time_label (.int 2) = some (fmt02 2, [2]) ∧
    time_label (.str "djf") = some ("djf", [1, 2, 12]) ∧
    time_label (.list [12, 1, 2]) = some ("djf", [1, 2, 12]) :=
  ⟨(time_label_well_formed.1 2 (by decide) (by decide)).1,
   time_label_well_formed.2.1 ("djf", [1, 2, 12]) (by decide),
   time_label_well_formed.2.2.1 ("djf", [1, 2, 12]) (by decide) [12, 1, 2]
     (by decide)⟩

/-! ## C6: unmatched intervals fail -/

/-- C6 counterexample.  The singleton list `[13]` is not a month
integer in 1-12, is not a length-1 iterable OF an integer in 1-12,
and matches no vocabulary entry by set equality — yet `_time_label`
returns the label `"13"` instead of failing, because the length-1
branch formats its element without any range check. -/
theorem time_label_unmatched_cex :
    time_label (.list [13]) = some ("13", [13]) ∧
    (∀ e ∈ seasonTable, setEq [13] e.2 = false) ∧
    ¬ (1 ≤ (13 : Int) ∧ (13 : Int) ≤ 12) := by
  decide

/-- C6 (corrected): every input that is neither a month integer in
1-12, nor a length-1 iterable of ANY integer (such singletons are
formatted without a range check), nor the string `"annual"`, nor a
string equal to a vocabulary code, nor an iterable set-equal to a
vocabulary entry's months, makes `_time_label` fail (no label is
produced). -/
theorem time_label_unmatched_fails :
    (∀ n : Int, ¬ (1 ≤ n ∧ n ≤ 12) → time_label (.int n) = none) ∧
    (∀ s : String, s ≠ "annual" → (∀ e ∈ seasonTable, s ≠ e.1) →
       time_label (.str s) = none) ∧
    (∀ l : List Int, l.length ≠ 1 → (∀ e ∈ seasonTable, setEq l e.2 = false) →
       time_label (.list l) = none) := by
  refine ⟨fun n h => by simp [time_label, h], ?_, ?_⟩
  · intro s _ h
    simp only [time_label, Option.map_eq_none']
    rw [List.find?_eq_none]
    intro e he
    simpa using h e he
  · intro l hlen h
    simp only [time_label, if_neg hlen, Option.map_eq_none']
    rw [List.find?_eq_none]
    intro e he
    simp [h e he]

/-- Witness for `time_label_unmatched_fails`: the integer 0, the
string `"xyz"`, and the empty list all fail. -/
theorem time_label_unmatched_fails_witness :
    time_label (.int 0) = none ∧ time_label (.str "xyz") = none ∧
    time_label (.list []) = none :=
  ⟨time_label_unmatched_fails.1 0 (by decide),
   time_label_unmatched_fails.2.1 "xyz" (by decide) (by decide),
   time_label_unmatched_fails.2.2 [] (by decide) (by decide)⟩

/-! ## C8: case sensitivity -/

/-- C8 counterexample.  `_time_label` never lower-cases its input:
`"djf"` resolves, but its upper-case variant `"DJF"` matches no table
entry (neither by string equality nor by set equality, whose
character-set comparison never equals a set of ints) and the function
fails instead of returning the same label. -/
theorem time_label_case_cex :
    time_label (.str "djf") = some ("djf", [1, 2, 12]) ∧
    time_label (.str "DJF") = none := by
  constructor <;> decide

/-- C8 (corrected): `_time_label` is case-SENSITIVE on string input:
every string that is not fixed by lower-casing (i.e. contains an
upper-case letter) matches no vocabulary entry — all codes are
lower-case — and fails to resolve. -/
theorem time_label_case_sensitive :
    ∀ s : String, pyLower s ≠ s → time_label (.str s) = none := by
  intro s hs
  have hcodes : ∀ e ∈ seasonTable, pyLower e.1 = e.1 := by decide
  simp only [time_label, Option.map_eq_none']
  rw [List.find?_eq_none]
  intro e he
  simp only [decide_eq_true_eq]
  intro h
  apply hs
  rw [h]
  exact hcodes e he

/-- Witness for `time_label_case_sensitive` at `"DJF"`. -/
theorem time_label_case_sensitive_witness :
    time_label (.str "DJF") = none :=
  time_label_case_sensitive "DJF" (by decide)

/-! ## C7: unsupported representations fail -/

/-- C7 (confirmed).  `nc_name_gfdl` produces no filename — the source
raises (`UnboundLocalError` on `gfdl_file` or `label`) instead of
falling back to a default — whenever (1) `data_type` is none of
`'ts'`, `'inst'`, `'av'`, `'av_ts'`; (2) the representation is
ts/inst but the interval granularity is none of `'annual'`,
`'monthly'`, `'daily'` and does not contain `'hr'`; (3) the
representation is `'av'` with seasonal granularity, whose only live
statement reads `label` before assignment; or (4) the representation
is `'av'` with any other unrecognized granularity — none of
`'annual'`/`'ann'`, `'seasonal'`/`'seas'`, `'monthly'`/`'mon'` —
where `label` is never assigned either. -/
theorem nc_name_unsupported :
    (∀ dt : String, dt ≠ "ts" → dt ≠ "inst" → dt ≠ "av" → dt ≠ "av_ts" →
      ∀ (name domain it : String) (data_yr : Int) (intvl : Intvl)
        (nc_start_yr nc_dur : Int),
        nc_name_gfdl name domain dt it data_yr intvl nc_start_yr nc_dur = none) ∧
    (∀ dt it : String, (dt = "ts" ∨ dt = "inst") →
      it ≠ "annual" → it ≠ "monthly" → it ≠ "daily" →
      pyContains it "hr" = false →
      ∀ (name domain : String) (data_yr : Int) (intvl : Intvl)
        (nc_start_yr nc_dur : Int),
        nc_name_gfdl name domain dt it data_yr intvl nc_start_yr nc_dur = none) ∧
    (∀ it : String, (it = "seasonal" ∨ it = "seas") →
      ∀ (name domain : String) (data_yr : Int) (intvl : Intvl)
        (nc_start_yr nc_dur : Int),
        nc_name_gfdl name domain "av" it data_yr intvl nc_start_yr nc_dur = none) ∧
    (∀ it : String, it ≠ "annual" → it ≠ "ann" → it ≠ "seasonal" → it ≠ "seas" →
      it ≠ "monthly" → it ≠ "mon" →
      ∀ (name domain : String) (data_yr : Int) (intvl : Intvl)
        (nc_start_yr nc_dur : Int),
        nc_name_gfdl name domain "av" it data_yr intvl nc_start_yr nc_dur = none) := by
  refine ⟨?_, ?_, ?_, ?_⟩
  · intro dt h1 h2 h3 h4 name domain it data_yr intvl nc_start_yr nc_dur
    by_cases hd : nc_dur = 0 <;> simp [nc_name_gfdl, hd, h1, h2, h3, h4]
  · rintro dt it (rfl | rfl) h1 h2 h3 h4 name domain data_yr intvl nc_start_yr nc_dur <;>
      (by_cases hd : nc_dur = 0 <;> simp [nc_name_gfdl, hd, h1, h2, h3, h4])
  · rintro it (rfl | rfl) name domain data_yr intvl nc_start_yr nc_dur <;>
      (by_cases hd : nc_dur = 0 <;> simp [nc_name_gfdl, hd])
  · intro it h1 h2 h3 h4 h5 h6 name domain data_yr intvl nc_start_yr nc_dur
    by_cases hd : nc_dur = 0 <;> simp [nc_name_gfdl, hd, h1, h2, h3, h4, h5, h6]

/-- Witness for `nc_name_unsupported`: unknown data type `"xyz"`,
ts with granularity `"weekly"`, av with `"seasonal"`, and av with the
unrecognized granularity `"daily"`. -/
theorem nc_name_unsupported_witness :
    nc_name_gfdl "olr" "atmos" "xyz" "annual" 21 (.int 1) 1 5 = none ∧
    nc_name_gfdl "olr" "atmos" "ts" "weekly" 21 (.int 1) 1 5 = none ∧
    nc_name_gfdl "olr" "atmos" "av" "seasonal" 21 (.int 1) 1 5 = none ∧
    nc_name_gfdl "olr" "atmos" "av" "daily" 21 (.int 1) 1 5 = none :=
  ⟨nc_name_unsupported.1 "xyz" (by decide) (by decide) (by decide) (by decide)
     "olr" "atmos" "annual" 21 (.int 1) 1 5,
   nc_name_unsupported.2.1 "ts" "weekly" (Or.inl rfl) (by decide) (by decide)
     (by decide) (by decide) "olr" "atmos" 21 (.int 1) 1 5,
   nc_name_unsupported.2.2.1 "seasonal" (Or.inl rfl) "olr" "atmos" 21 (.int 1) 1 5,
   nc_name_unsupported.2.2.2 "daily" (by decide) (by decide) (by decide)
     (by decide) (by decide) (by decide) "olr" "atmos" 21 (.int 1) 1 5⟩

/-! ## C9: time-index selection -/

/-- C9 (confirmed).  `_get_time` selects index `i` iff the decoded
date's month is in `months` AND its year lies in the inclusive range
`[start_yr, end_yr]`; and when no element satisfies the predicate it
returns the empty selection (empty index list, empty values) without
failing. -/
theorem get_time_spec :
    ∀ (num2date : Int → PyDate) (time : List Int) (start_yr end_yr : Int)
      (months : List Int),
    (∀ i : Nat,
       i ∈ (get_time num2date time start_yr end_yr months).1 ↔
         i < time.length ∧
         ((num2date (time.getD i 0)).month ∈ months ∧
          start_yr ≤ (num2date (time.getD i 0)).year ∧
          (num2date (time.getD i 0)).year ≤ end_yr)) ∧
    ((∀ t ∈ time, ¬ ((num2date t).month ∈ months ∧
        start_yr ≤ (num2date t).year ∧ (num2date t).year ≤ end_yr)) →
      get_time num2date time start_yr end_yr months = ([], [])) := by
  intro num2date time start_yr end_yr months
  constructor
  · intro i
    simp [get_time, get_time_inds, List.mem_filter, List.mem_range, timeSelected,
      and_assoc]
  · intro h
    have hinds : get_time_inds num2date time start_yr end_yr months = [] := by
      rw [get_time_inds, List.filter_eq_nil_iff]
      intro i hi
      have hi' : i < time.length := List.mem_range.mp hi
      have hmem : time.getD i 0 ∈ time := by
        rw [List.getD_eq_getElem time 0 hi']
        exact List.getElem_mem hi'
      simpa [timeSelected, and_assoc] using h _ hmem
    simp [get_time, hinds]

/-- Witness for `get_time_spec`: a one-element axis whose year 5 lies
outside the requested range 10-20 yields the empty selection. -/
theorem get_time_spec_witness :
    get_time (fun t => ⟨t, 1⟩) [5] 10 20 [1] = ([], []) :=
  (get_time_spec (fun t => ⟨t, 1⟩) [5] 10 20 [1]).2 (by decide)

/-! ## C10: month-initial substring lookup -/

lemma find?_range_eq_some {pred : Nat → Bool} {n p : Nat} (hp : p < n)
    (hpred : pred p = true) (hmin : ∀ q, q < p → pred q = false) :
    (List.range n).find? pred = some p := by
  induction n with
  | zero => omega
  | succ m ih =>
    rw [List.range_succ, List.find?_append]
    rcases Nat.lt_or_ge p m with h | h
    · rw [ih h]; rfl
    · have hpm : p = m := by omega
      subst hpm
      have hnone : (List.range p).find? pred = none := by
        rw [List.find?_eq_none]
        intro q hq
        simp [hmin q (List.mem_range.mp hq)]
      rw [hnone]
      simp [hpred]

/-- `str.find` returns the position of the first occurrence. -/
lemma pyFind_eq_of_first_occ (hay needle : String) (p : Nat)
    (hocc : needle.toList <+: hay.toList.drop p)
    (hmin : ∀ q, q < p → ¬ needle.toList <+: hay.toList.drop q) :
    pyFind hay needle = (p : Int) := by
  have hp : p < hay.toList.length + 1 := by
    have hle := hocc.length_le
    rw [List.length_drop] at hle
    by_cases hne : needle.toList = []
    · rcases Nat.eq_zero_or_pos p with rfl | hp0
      · omega
      · exact absurd (by rw [hne]; exact List.nil_prefix) (hmin 0 hp0)
    · have h1 : 1 ≤ needle.toList.length := by
        cases hl : needle.toList
        · exact absurd hl hne
        · simp
      omega
  unfold pyFind
  rw [find?_range_eq_some hp (List.isPrefixOf_iff_prefix.mpr hocc)
    (fun q hq => by
      rw [Bool.eq_false_iff]
      intro hc
      exact hmin q hq (List.isPrefixOf_iff_prefix.mp hc))]

/-- `str.find` returns `-1` when the needle never occurs. -/
lemma pyFind_of_no_occ (hay needle : String)
    (h : ∀ p : Nat, ¬ needle.toList <+: hay.toList.drop p) :
    pyFind hay needle = -1 := by
  unfold pyFind
  have hfind : (List.range (hay.toList.length + 1)).find?
      (fun i => needle.toList.isPrefixOf (hay.toList.drop i)) = none := by
    rw [List.find?_eq_none]
    intro i _
    simp only [List.isPrefixOf_iff_prefix]
    exact h i
  rw [hfind]

/-- Conversely, `str.find = -1` means the needle occurs nowhere. -/
lemma no_occ_of_pyFind_neg (hay needle : String)
    (h : pyFind hay needle = -1) :
    ∀ p : Nat, ¬ needle.toList <+: hay.toList.drop p := by
  have hfind : (List.range (hay.toList.length + 1)).find?
      (fun i => needle.toList.isPrefixOf (hay.toList.drop i)) = none := by
    cases hf : (List.range (hay.toList.length + 1)).find?
        (fun i => needle.toList.isPrefixOf (hay.toList.drop i)) with
    | none => rfl
    | some i =>
      exfalso
      unfold pyFind at h
      rw [hf] at h
      have h' : (i : Int) = -1 := h
      omega
  have hall := List.find?_eq_none.mp hfind
  intro p
  by_cases hp : p < hay.toList.length + 1
  · have := hall p (List.mem_range.mpr hp)
    simpa using this
  · have hdrop : hay.toList.drop p = [] := List.drop_eq_nil_of_le (by omega)
    rw [hdrop]
    cases hne : needle.toList with
    | nil =>
      exfalso
      have h0 := hall 0 (List.mem_range.mpr (by omega))
      exact h0 (by rw [hne, List.isPrefixOf_iff_prefix]; exact List.nil_prefix)
    | cons a l => simp

/-- C10 (confirmed).  `_month_indices` is total on strings: when the
lower-cased input occurs in the doubled month-initial sequence
`'jfmamjjasond'*2` (first occurrence at position `p`), it returns the
consecutive indices `range(p+1, p+1+len)` — so wrap-around names such
as `'ndj'` are supported; when the lower-cased non-`'ann'` input has
no occurrence it raises no error and returns `range(0, len)`, whose
start 0 is not a valid month index. -/
theorem month_indices_spec :
    ∀ s : String, pyLower s ≠ "ann" →
    (∀ p : Nat,
       (pyLower s).toList <+:
         (("jfmamjjasond" ++ "jfmamjjasond" : String)).toList.drop p →
       (∀ q, q < p → ¬ (pyLower s).toList <+:
         (("jfmamjjasond" ++ "jfmamjjasond" : String)).toList.drop q) →
       month_indices (.str s) =
         pyRange ((p : Int) + 1) ((p : Int) + 1 + (s.toList.length : Int))) ∧
    ((∀ p : Nat, ¬ (pyLower s).toList <+:
         (("jfmamjjasond" ++ "jfmamjjasond" : String)).toList.drop p) →
       month_indices (.str s) = pyRange 0 (s.toList.length : Int)) := by
  intro s hs
  constructor
  · intro p hocc hmin
    have hf := pyFind_eq_of_first_occ _ _ p hocc hmin
    simp only [month_indices, if_neg hs]
    rw [hf]
  · intro h
    have hf := pyFind_of_no_occ _ _ h
    simp only [month_indices, if_neg hs]
    rw [hf]
    norm_num

/-- Witness for `month_indices_spec`: the wrap-around season name
`"ndj"` (first occurrence at 10) and the never-occurring `"xyz"`. -/
theorem month_indices_spec_witness :
    month_indices (.str "ndj") = [11, 12, 13] ∧
    month_indices (.str "xyz") = [0, 1, 2] := by
  constructor
  · have h := (month_indices_spec "ndj" (by decide)).1 10 (by decide) (by decide)
    rw [h]; decide
  · have h := (month_indices_spec "xyz" (by decide)).2
      (no_occ_of_pyFind_neg _ _ (by decide))
    rw [h]; decide

end Aospy
